import Mathlib

/-!
Verification of the resumable YouTube pipeline in src/src/downloader.py,
src/src/models.py and src/src/config.py (class YouTubeDownloader and the
transcriber/summarizer models).  Pure control flow is embedded directly;
external effects (network downloads, whisper calls, the filesystem) are
supplied as oracle fields of explicit world structures.  Python falsy
results (None, empty string, empty list) returned by a stage call are
modelled as Option.none; a raised exception is modelled with Except.error.
-/

/-- A Python exception value, as far as the embedded code distinguishes
exceptions: an AttributeError produced by looking up an undefined method
on the YouTubeDownloader instance, or an ordinary exception carrying a
message. -/
inductive PyExn where
  | attributeError (name : String)
  | exc (msg : String)
deriving DecidableEq, Repr

instance [DecidableEq ε] [DecidableEq α] : DecidableEq (Except ε α) := fun x y =>
  match x, y with
  | .ok a, .ok b =>
    if h : a = b then isTrue (by rw [h])
    else isFalse (by intro hh; cases hh; exact h rfl)
  | .error a, .error b =>
    if h : a = b then isTrue (by rw [h])
    else isFalse (by intro hh; cases hh; exact h rfl)
  | .ok _, .error _ => isFalse (by intro hh; cases hh)
  | .error _, .ok _ => isFalse (by intro hh; cases hh)

/-- Retry setting MAX_RETRIES from src/src/config.py line 64. -/
def MAX_RETRIES : Nat := 3

/-- Retry setting RETRY_DELAY (seconds) from src/src/config.py line 65. -/
def RETRY_DELAY : Nat := 5

/-- The methods actually defined on class YouTubeDownloader in
src/src/downloader.py (the def statements of the class body, in source
order).  Neither a checkpoint reader nor a checkpoint writer nor a usage
logger appears among them. -/
def downloaderMethods : List String :=
  ["__init__", "_setup_logging", "_sanitize_text", "_ensure_directories",
   "_update_dependencies", "_log_error", "_log_warning", "_log_info",
   "download_video", "transcribe_video", "_transcribe_large_file",
   "summarize_transcription", "process_url", "download_from_file",
   "_find_audio_file", "_find_transcription_file", "_find_summary_files",
   "_get_video_title", "_sanitize_filename", "_get_ydl_opts",
   "_remove_emojis", "_delete_duplicates", "generate_recommendations_from_logs"]

/-- Python attribute lookup followed by a call: if the named method exists
on the class the given implementation runs, otherwise an AttributeError is
raised. -/
def callMethod (methods : List String) (name : String)
    (impl : Unit → Except PyExn α) : Except PyExn α :=
  if methods.contains name then impl () else .error (.attributeError name)

/-!
Orchestration model: YouTubeDownloader.process_url (src/src/downloader.py
lines 566 to 713) and download_from_file (lines 715 to 790).  The stage
helpers download_video, transcribe_video, summarize_transcription and the
three find helpers perform network and file effects, so inside process_url
they are supplied as oracle fields of PWorld; each oracle yields either a
raised exception, a falsy result (none) or a truthy result (some value).
The checkpoint field records what the undefined method
_get_checkpoint_status would have returned had it existed; a completed
stage set is modelled as a list of stage names, matching the membership
tests of lines 582, 615 and 647.
-/

/-- Oracles for the per-URL pipeline run of process_url. -/
structure PWorld where
  checkpoint : String → List String
  download : String → Except String (Option String)
  findAudio : String → Except String (Option String)
  transcribe : String → Except String (Option String)
  findTranscription : String → Except String (Option String)
  summarize : String → Except String (Option (List String))
  findSummaries : String → Except String (Option (List String))

/-- Outcome of stage 1 of process_url (lines 580 to 611): the local
variable file_path, the success flag, and which of download_video and
_find_audio_file was invoked. -/
structure S1Out where
  file_path : Option String
  success : Bool
  dlInvoked : Bool
  faInvoked : Bool
deriving DecidableEq, Repr

/-- Outcome of stage 2 of process_url (lines 613 to 644). -/
structure S2Out where
  transcription_file : Option String
  success : Bool
  trInvoked : Bool
  ftInvoked : Bool
deriving DecidableEq, Repr

/-- Outcome of stage 3 of process_url (lines 646 to 676). -/
structure S3Out where
  success : Bool
  smInvoked : Bool
  fsInvoked : Bool
deriving DecidableEq, Repr

/-- Stage 1 of process_url, lines 580 to 611.  On a fresh download the
inner try block calls self._save_checkpoint (line 588) right after a
truthy download result; because that method is undefined the call raises
AttributeError, which the inner except of line 594 catches, flipping
success to false while file_path keeps its assigned value. -/
def stage1 (w : PWorld) (url : String) (st : List String) : S1Out :=
  if !(st.contains "download") then
    match w.download url with
    | .error _ => ⟨none, false, true, false⟩
    | .ok none => ⟨none, false, true, false⟩
    | .ok (some fp) =>
      match callMethod downloaderMethods "_save_checkpoint" (fun _ => .ok ()) with
      | .error _ => ⟨some fp, false, true, false⟩
      | .ok _ => ⟨some fp, true, true, false⟩
  else
    match w.findAudio url with
    | .error _ => ⟨none, false, false, true⟩
    | .ok none => ⟨none, false, false, true⟩
    | .ok (some fp) => ⟨some fp, true, false, true⟩

/-- Stage 2 of process_url, lines 613 to 644: guarded by success, a truthy
file_path and the checkpoint membership test; the checkpoint write of line
621 raises AttributeError exactly as in stage 1. -/
def stage2 (w : PWorld) (url : String) (st : List String) (s1 : S1Out) : S2Out :=
  if s1.success && s1.file_path.isSome && !(st.contains "transcription") then
    match w.transcribe (s1.file_path.getD "") with
    | .error _ => ⟨none, false, true, false⟩
    | .ok none => ⟨none, false, true, false⟩
    | .ok (some tf) =>
      match callMethod downloaderMethods "_save_checkpoint" (fun _ => .ok ()) with
      | .error _ => ⟨some tf, false, true, false⟩
      | .ok _ => ⟨some tf, true, true, false⟩
  else if s1.success && s1.file_path.isSome then
    match w.findTranscription url with
    | .error _ => ⟨none, false, false, true⟩
    | .ok none => ⟨none, false, false, true⟩
    | .ok (some tf) => ⟨some tf, true, false, true⟩
  else ⟨none, s1.success, false, false⟩

/-- Stage 3 of process_url, lines 646 to 676, shaped like stage 2 with the
checkpoint write of line 653. -/
def stage3 (w : PWorld) (url : String) (st : List String) (s2 : S2Out) : S3Out :=
  if s2.success && s2.transcription_file.isSome && !(st.contains "summary") then
    match w.summarize (s2.transcription_file.getD "") with
    | .error _ => ⟨false, true, false⟩
    | .ok none => ⟨false, true, false⟩
    | .ok (some _) =>
      match callMethod downloaderMethods "_save_checkpoint" (fun _ => .ok ()) with
      | .error _ => ⟨false, true, false⟩
      | .ok _ => ⟨true, true, false⟩
  else if s2.success && s2.transcription_file.isSome then
    match w.findSummaries url with
    | .error _ => ⟨false, false, true⟩
    | .ok none => ⟨false, false, true⟩
    | .ok (some _) => ⟨true, false, true⟩
  else ⟨s2.success, false, false⟩

/-- The body of one try block of process_url after the checkpoint status
has been obtained (lines 577 to 700): the three stages, the usage logging
of lines 679 to 684 (whose _log_usage AttributeError is caught and only
logged), and the final branch of lines 687 to 700.  A true success returns
True (line 689); a failed run first calls the undefined _save_checkpoint
on line 693, so it raises AttributeError; the dead ok branch of that call
would fall through to the retry bookkeeping of the enclosing loop. -/
def processStages (w : PWorld) (url : String) (st : List String) :
    Except PyExn Bool :=
  let s1 := stage1 w url st
  let s2 := stage2 w url st s1
  let s3 := stage3 w url st s2
  if s3.success then .ok true
  else
    match callMethod downloaderMethods "_save_checkpoint" (fun _ => .ok ()) with
    | .error e => .error e
    | .ok _ => .ok false

/-- Loop constant max_retries of process_url, line 568. -/
def puMaxRetries : Nat := 3

/-- Loop constant retry_delay (seconds) of process_url, line 569; the
sleeps of lines 698 and 709 always use this fixed value. -/
def puRetryDelay : Nat := 5

/-- Control outcome of one iteration of the retry loop of process_url. -/
inductive IterControl where
  | ret (b : Bool)
  | cont
  | raised (e : PyExn)
deriving DecidableEq, Repr

/-- One iteration of the for loop of process_url (lines 571 to 711) at
attempt index a, together with the sleeps it performs.  The try block
first calls the undefined self._get_checkpoint_status (line 576), then
runs the stages; any exception reaches the handler of line 702, which
calls the undefined self._save_checkpoint (line 704) so that a second
AttributeError escapes the handler and aborts the loop. -/
def process_url_attempt (w : PWorld) (url : String) (a : Nat) :
    IterControl × List Nat :=
  let tryResult : Except PyExn Bool :=
    match callMethod downloaderMethods "_get_checkpoint_status"
        (fun _ => .ok (w.checkpoint url)) with
    | .error e => .error e
    | .ok st => processStages w url st
  match tryResult with
  | .ok true => (.ret true, [])
  | .ok false =>
    if a < puMaxRetries - 1 then (.cont, [puRetryDelay]) else (.ret false, [])
  | .error _ =>
    match callMethod downloaderMethods "_save_checkpoint" (fun _ => .ok ()) with
    | .error e2 => (.raised e2, [])
    | .ok _ =>
      if a < puMaxRetries - 1 then (.cont, [puRetryDelay]) else (.ret false, [])

/-- Result of a whole process_url call: the returned value or escaped
exception, the sleeps performed between attempts, and how many loop
iterations ran. -/
structure PUOut where
  result : Except PyExn Bool
  sleeps : List Nat
  iterations : Nat
deriving DecidableEq, Repr

/-- The retry loop of process_url over the remaining attempt indices;
falling off the loop returns False (line 713). -/
def process_url_loop (w : PWorld) (url : String) : List Nat → PUOut
  | [] => ⟨.ok false, [], 0⟩
  | a :: rest =>
    match process_url_attempt w url a with
    | (.ret b, s) => ⟨.ok b, s, 1⟩
    | (.raised e, s) => ⟨.error e, s, 1⟩
    | (.cont, s) =>
      let r := process_url_loop w url rest
      ⟨r.result, s ++ r.sleeps, r.iterations + 1⟩

/-- YouTubeDownloader.process_url (src/src/downloader.py lines 566 to
713).  The position arguments i and total only feed log messages. -/
def process_url (w : PWorld) (url : String) (_i _total : Nat) : PUOut :=
  process_url_loop w url (List.range puMaxRetries)

/-!
Batch model: download_from_file (lines 715 to 790).  The worker pool of
lines 739 to 763 submits every URL and then classifies each future result:
a True return is appended to results, a False return or any exception
raised by the job is appended to failed_urls.  The as_completed iteration
order is nondeterministic; the model processes outcomes in submission
order, which fixes the order inside each bucket but does not affect
membership or the counts of the final summary.
-/

/-- The summary dictionary built at lines 770 to 776. -/
structure BatchSummary where
  total_urls : Nat
  successful : Nat
  failed : Nat
  successful_urls : List String
  failed_urls : List String
deriving DecidableEq, Repr

/-- True exactly for a job that returned True (the only outcome appended
to the successful results at line 756). -/
def isOkTrue : Except PyExn Bool → Bool
  | .ok true => true
  | _ => false

/-- The result-collection loop of lines 751 to 763: each job outcome is
routed to the successful or the failed bucket; exceptions are caught at
line 761 and recorded as failures instead of propagating. -/
def collectResults : List (String × Except PyExn Bool) → List String × List String
  | [] => ([], [])
  | (u, r) :: rest =>
    let (s, f) := collectResults rest
    match r with
    | .ok true => (u :: s, f)
    | .ok false => (s, u :: f)
    | .error _ => (s, u :: f)

/-- Submission of the jobs (lines 745 to 748): URL number i of the batch
is passed to process_url together with the total count. -/
def buildOutcomes (w : PWorld) (total : Nat) :
    Nat → List String → List (String × Except PyExn Bool)
  | _, [] => []
  | i, u :: rest => (u, (process_url w u i total).result) :: buildOutcomes w total (i + 1) rest

/-- Python str.strip over the character list: drop leading and trailing
whitespace. -/
def pyStrip (s : String) : String :=
  ⟨((s.data.dropWhile Char.isWhitespace).reverse.dropWhile
      Char.isWhitespace).reverse⟩

/-- Line 727: strip each line of the URL file and keep the non-blank
ones. -/
def cleanLines (lines : List String) : List String :=
  (lines.map pyStrip).filter (fun s => s != "")

/-- YouTubeDownloader.download_from_file (lines 715 to 790), with the
existence of the URL file passed as a flag and its lines as a list.
Returns the successful-URL list returned at line 786 together with the
final summary of lines 770 to 776 when one is built (the early returns of
lines 724 and 731 produce no summary). -/
def download_from_file (w : PWorld) (urlsFileExists : Bool)
    (lines : List String) : List String × Option BatchSummary :=
  if !urlsFileExists then ([], none)
  else
    let urls := cleanLines lines
    if urls.isEmpty then ([], none)
    else
      let outcomes := buildOutcomes w urls.length 1 urls
      let buckets := collectResults outcomes
      (buckets.1, some ⟨urls.length, buckets.1.length, buckets.2.length,
        buckets.1, buckets.2⟩)

/-- A world whose oracles all report falsy results, for concrete
evaluations of the orchestration model. -/
def trivialPWorld : PWorld :=
  ⟨fun _ => [], fun _ => .ok none, fun _ => .ok none, fun _ => .ok none,
   fun _ => .ok none, fun _ => .ok none, fun _ => .ok none⟩

/-!
Download stage model: YouTubeDownloader.download_video (lines 232 to
342).  After the skip-if-exists check of lines 243 to 247, the three
backends pytube, yt-dlp and youtube-dl are each tried inside one
try/except block apiece; a backend that raises, finds no stream or leaves
no file falls through to the next one, and there is no retry loop around
any of them.  The external backends are oracles: for pytube the path its
stream.download call would produce (pytube saves under
os.path.join(output_dir, filename) for the filename=title it is given),
for the two yt-dl backends whether the run raised and whether the
canonical MP3 exists afterwards.
-/

/-- Result of the pytube attempt of lines 251 to 290. -/
inductive PytubeOutcome where
  | raised (msg : String)
  | noStreams
  | downloaded (path : String)
deriving DecidableEq, Repr

/-- Result of a yt-dlp or youtube-dl attempt (lines 292 to 336): the
download call raised, or it completed with or without the expected MP3
appearing. -/
inductive YdlOutcome where
  | raised (msg : String)
  | completed (fileAppears : Bool)
deriving DecidableEq, Repr

/-- Oracles and initial file state for one download_video call. -/
structure DLWorld where
  title : String
  canonicalExists : Bool
  pytube : PytubeOutcome
  convert : Except String Unit
  ytdlp : YdlOutcome
  youtubedl : YdlOutcome
deriving Repr

/-- Result of download_video: the returned path (None when every backend
failed, line 342), the number of backend attempts entered, and whether
the canonical MP3 exists afterwards. -/
structure DLOut where
  result : Option String
  invocations : Nat
  canonicalAfter : Bool
deriving DecidableEq, Repr

/-- self.output_dir for the default base directory (line 14). -/
def outputDir : String := "output/downloads"

/-- The canonical MP3 location of line 243. -/
def canonicalMp3 (title : String) : String := outputDir ++ "/" ++ title ++ ".mp3"

/-- Third backend, youtube-dl (lines 314 to 336): on a completed run with
the MP3 present it returns the canonical path, otherwise control falls to
the failure return of line 342. -/
def tryYoutubedl (w : DLWorld) (inv : Nat) : DLOut :=
  match w.youtubedl with
  | .completed true => ⟨some (canonicalMp3 w.title), inv + 1, true⟩
  | .completed false => ⟨none, inv + 1, false⟩
  | .raised _ => ⟨none, inv + 1, false⟩

/-- Second backend, yt-dlp (lines 292 to 312), falling through to
youtube-dl on failure. -/
def tryYtdlp (w : DLWorld) (inv : Nat) : DLOut :=
  match w.ytdlp with
  | .completed true => ⟨some (canonicalMp3 w.title), inv + 1, true⟩
  | .completed false => tryYoutubedl w (inv + 1)
  | .raised _ => tryYoutubedl w (inv + 1)

/-- One character list begins with another. -/
def beginsWith : List Char → List Char → Bool
  | _, [] => true
  | [], _ :: _ => false
  | a :: as, b :: bs => a == b && beginsWith as bs

/-- Python str.endswith, executable in the kernel. -/
def pyEndsWith (s suf : String) : Bool :=
  beginsWith s.data.reverse suf.data.reverse

/-- YouTubeDownloader.download_video (lines 232 to 342).  The pytube
branch returns the downloaded path directly when it already ends in
".mp3" (line 274) and otherwise converts it to the canonical MP3 location
with pydub (lines 275 to 280). -/
def download_video (w : DLWorld) : DLOut :=
  if w.canonicalExists then ⟨some (canonicalMp3 w.title), 0, true⟩
  else
    match w.pytube with
    | .downloaded p =>
      if pyEndsWith p ".mp3" then ⟨some p, 1, p == canonicalMp3 w.title⟩
      else
        match w.convert with
        | .ok _ => ⟨some (canonicalMp3 w.title), 1, true⟩
        | .error _ => tryYtdlp w 1
    | .raised _ => tryYtdlp w 1
    | .noStreams => tryYtdlp w 1

/-- The pytube attempt produced no usable file. -/
def pytubeFails (w : DLWorld) : Bool :=
  match w.pytube with
  | .raised _ => true
  | .noStreams => true
  | .downloaded p =>
    if pyEndsWith p ".mp3" then false
    else
      match w.convert with
      | .error _ => true
      | .ok _ => false

/-- A yt-dl style attempt produced no usable file. -/
def ydlFails : YdlOutcome → Bool
  | .raised _ => true
  | .completed b => !b

/-- A world in which every download backend raises. -/
def dlAllFailWorld : DLWorld :=
  ⟨"t", false, .raised "pytube error", .ok (), .raised "ytdlp error",
   .raised "youtubedl error"⟩

/-- A world where the canonical MP3 is already present. -/
def dlSkipWorld : DLWorld :=
  ⟨"t", true, .raised "x", .ok (), .raised "x", .raised "x"⟩

/-- A world where the title itself ends in ".mp3" and pytube saves the
stream under os.path.join(output_dir, title): the returned path already
ends in ".mp3", so no conversion happens and the canonical location
output_dir/title.mp3 (here with a doubled extension) is never written. -/
def dlMp3TitleWorld : DLWorld :=
  ⟨"x.mp3", false, .downloaded "output/downloads/x.mp3", .ok (),
   .raised "e", .raised "e"⟩

/-!
Transcriber models from src/src/models.py.  LocalWhisperTranscriber and
APIWhisperTranscriber wrap each transcription attempt in a
for attempt in range(1, MAX_RETRIES + 1) loop; on failure they sleep
RETRY_DELAY * attempt seconds before the next attempt and re-raise the
final failure.  The API variant classifies the error text first:
authentication errors re-raise immediately, rate-limit errors add an
elevated sleep of RETRY_DELAY * 2 * attempt.  The time-based request
spacing of ENABLE_RATE_LIMITING (wall-clock arithmetic) is outside the
model.  Each loop is modelled over the explicit attempt index list
[1, ..., MAX_RETRIES] and returns the outcome, the index of the last
attempt run, and the list of sleeps performed, in order.
-/

/-- The attempt indices range(1, MAX_RETRIES + 1). -/
def attemptIndices : List Nat := (List.range MAX_RETRIES).map (fun i => i + 1)

/-- The retry loop of LocalWhisperTranscriber.transcribe (models.py lines
85 to 102): a successful attempt returns immediately; a failed attempt
sleeps RETRY_DELAY * attempt before the next one, unless it was the last
attempt, whose failure is re-raised. -/
def localRetryLoop (att : Nat → Except String String) :
    List Nat → Except String String × Nat × List Nat
  | [] => (.error "", 0, [])
  | [k] => (att k, k, [])
  | k :: k2 :: rest =>
    match att k with
    | .ok t => (.ok t, k, [])
    | .error _ =>
      let r := localRetryLoop att (k2 :: rest)
      (r.1, r.2.1, RETRY_DELAY * k :: r.2.2)

/-- Oracles for one LocalWhisperTranscriber.transcribe call. -/
structure LWWorld where
  audioExists : Bool
  loadOk : Except String Unit
  att : Nat → Except String String

/-- LocalWhisperTranscriber.transcribe (models.py lines 76 to 102): the
missing-file check of line 78 raises before anything else, the lazy model
load of line 84 may raise, then the retry loop runs. -/
def LocalWhisper_transcribe (w : LWWorld) :
    Except String String × Nat × List Nat :=
  if !w.audioExists then (.error "El archivo de audio no existe", 0, [])
  else
    match w.loadOk with
    | .error e => (.error e, 0, [])
    | .ok _ => localRetryLoop w.att attemptIndices

/-- One character list occurs inside another as a contiguous run. -/
def containsSub : List Char → List Char → Bool
  | [], pat => beginsWith [] pat
  | l@(_ :: rest), pat => beginsWith l pat || containsSub rest pat

/-- Python substring membership, pat in s. -/
def strContains (s pat : String) : Bool := containsSub s.data pat.data

/-- Python str.lower over the character list. -/
def lowerStr (s : String) : String := ⟨s.data.map Char.toLower⟩

/-- The error classification of APIWhisperTranscriber.transcribe lines
169 to 178: an error whose lowered text mentions an API key or
authentication. -/
def isAuthMsg (e : String) : Bool :=
  strContains (lowerStr e) "api key" || strContains (lowerStr e) "authentication"

/-- An error whose lowered text mentions a rate limit. -/
def isRateMsg (e : String) : Bool := strContains (lowerStr e) "rate limit"

/-- The retry loop of APIWhisperTranscriber.transcribe (models.py lines
139 to 188): an authentication error re-raises at once; a rate-limit
error first sleeps RETRY_DELAY * 2 * attempt; any non-authentication
failure before the last attempt sleeps RETRY_DELAY * attempt and
retries, and the last failure is re-raised. -/
def apiRetryLoop (att : Nat → Except String String) :
    List Nat → Except String String × Nat × List Nat
  | [] => (.error "", 0, [])
  | [k] =>
    match att k with
    | .ok t => (.ok t, k, [])
    | .error e =>
      if isAuthMsg e then (.error e, k, [])
      else (.error e, k, if isRateMsg e then [RETRY_DELAY * 2 * k] else [])
  | k :: k2 :: rest =>
    match att k with
    | .ok t => (.ok t, k, [])
    | .error e =>
      if isAuthMsg e then (.error e, k, [])
      else
        let extra := if isRateMsg e then [RETRY_DELAY * 2 * k] else []
        let r := apiRetryLoop att (k2 :: rest)
        (r.1, r.2.1, extra ++ RETRY_DELAY * k :: r.2.2)

/-- Oracles for one APIWhisperTranscriber.transcribe call. -/
structure APIWorld where
  audioExists : Bool
  sizeBytes : Nat
  att : Nat → Except String String

/-- The 25MB API limit of models.py line 132 and downloader.py line 368,
in bytes. -/
def apiSizeLimit : Nat := 25 * 1024 * 1024

/-- APIWhisperTranscriber.transcribe (models.py lines 122 to 188): the
missing-file check raises, then the over-25MB check raises, then the
classified retry loop runs. -/
def APIWhisper_transcribe (w : APIWorld) :
    Except String String × Nat × List Nat :=
  if !w.audioExists then (.error "El archivo de audio no existe", 0, [])
  else if w.sizeBytes > apiSizeLimit then
    (.error "El archivo es demasiado grande para la API de Whisper", 0, [])
  else apiRetryLoop w.att attemptIndices

/-!
Transcription stage model: YouTubeDownloader.transcribe_video (lines 344
to 419) and _transcribe_large_file (lines 421 to 478).  The duration
probe of lines 351 to 364 only logs and swallows its own errors, so it is
not modelled.  transcribe_video delegates files over 25MB to
_transcribe_large_file; otherwise its inner try block calls the
configured transcriber once, treats an empty transcription as a failure
(line 376), and on any failure the except block of line 390 falls back:
when the configured method is "api" it flips config.TRANSCRIPTION_METHOD
to "local" and calls self.transcriber.transcribe a second time (the
transcriber object itself is unchanged) with any further failure reaching
the outer except, which returns None.
-/

/-- Oracles for one transcribe_video call: the size of the input file,
the configured transcription method, the outcomes of the two possible
direct transcriber calls, and the large-file probe, segment-split and
per-segment transcription outcomes. -/
structure TVWorld where
  sizeBytes : Nat
  method : String
  call1 : Except String String
  call2 : Except String String
  probe : Except String Nat
  split : Nat → Except String Unit
  seg : Nat → Except String String

/-- Fixed segment length in seconds, line 431. -/
def SEGMENT_DURATION : Nat := 300

/-- Number of segments, line 432: int(duration / 300) + 1. -/
def numSegments (duration : Nat) : Nat := duration / SEGMENT_DURATION + 1

/-- Worker bound of the segment pool, line 460. -/
def SEGMENT_MAX_WORKERS : Nat := 3

/-- Split a character list at a separator character. -/
def splitOnChar (c : Char) : List Char → List (List Char)
  | [] => [[]]
  | a :: rest =>
    let r := splitOnChar c rest
    if a == c then [] :: r
    else
      match r with
      | [] => [[a]]
      | h :: t => (a :: h) :: t

/-- os.path.basename over a slash-separated path. -/
def baseName (p : String) : String :=
  ⟨(splitOnChar '/' p.data).getLastD p.data⟩

/-- os.path.splitext first component for a name with a regular dotted
extension. -/
def stripExt (s : String) : String :=
  match splitOnChar '.' s.data with
  | [] => s
  | [x] => ⟨x⟩
  | xs => ⟨List.intercalate ['.'] xs.dropLast⟩

/-- self.transcriptions_dir for the default base directory (line 15). -/
def transcriptionsDir : String := "output/transcriptions"

/-- The transcript location of lines 380 to 381. -/
def transcriptionFilePath (file_path : String) : String :=
  transcriptionsDir ++ "/" ++ stripExt (baseName file_path) ++ ".txt"

/-- Sequence the ffmpeg segment extractions of lines 440 to 450; any
raise aborts the whole large-file procedure. -/
def seqSplits (f : Nat → Except String Unit) : List Nat → Except String Unit
  | [] => .ok ()
  | i :: rest =>
    match f i with
    | .error e => .error e
    | .ok _ => seqSplits f rest

/-- The value of list(executor.map(transcribe_segment, segments)) at line
461: results in original segment order, with the first raising segment
(in input order) aborting the collection. -/
def seqSegs (f : Nat → Except String String) :
    List Nat → Except String (List String)
  | [] => .ok []
  | i :: rest =>
    match f i with
    | .error e => .error e
    | .ok t =>
      match seqSegs f rest with
      | .error e => .error e
      | .ok ts => .ok (t :: ts)

/-- _transcribe_large_file (lines 421 to 478): probe the duration, split
into fixed segments, transcribe them, join the non-empty transcripts
with newlines in segment order and write the transcript file; any
exception is re-raised at line 478 with nothing written.  Returns the
outcome and the list of (path, content) writes. -/
def transcribe_large_file (w : TVWorld) (file_path : String) :
    Except String String × List (String × String) :=
  match w.probe with
  | .error e => (.error e, [])
  | .ok duration =>
    let n := numSegments duration
    match seqSplits w.split (List.range n) with
    | .error e => (.error e, [])
    | .ok _ =>
      match seqSegs w.seg (List.range n) with
      | .error e => (.error e, [])
      | .ok ts =>
        let full := String.intercalate "\n" (ts.filter (fun t => t != ""))
        let out := transcriptionFilePath file_path
        (.ok out, [(out, full)])

/-- Result of transcribe_video: the returned transcript path (None on
stage failure, line 419), the (path, content) writes performed, the
number of direct transcriber calls made on the small-file path, and the
value of config.TRANSCRIPTION_METHOD afterwards. -/
structure TVOut where
  result : Option String
  written : List (String × String)
  transcriberCalls : Nat
  methodAfter : String
deriving DecidableEq, Repr

/-- The fallback arm of transcribe_video (lines 390 to 414), reached when
the first transcriber call raised or returned an empty transcription:
with method "api" it switches the config to "local" and calls the same
transcriber once more; otherwise it re-raises, and the outer except of
line 416 turns any of these failures into a None return. -/
def transcribeFallback (w : TVWorld) (file_path : String) : TVOut :=
  if w.method == "api" then
    match w.call2 with
    | .ok t2 =>
      if t2 == "" then ⟨none, [], 2, "local"⟩
      else ⟨some (transcriptionFilePath file_path),
            [(transcriptionFilePath file_path, t2)], 2, "local"⟩
    | .error _ => ⟨none, [], 2, "local"⟩
  else ⟨none, [], 1, w.method⟩

/-- YouTubeDownloader.transcribe_video (lines 344 to 419). -/
def transcribe_video (w : TVWorld) (file_path : String) : TVOut :=
  if w.sizeBytes > apiSizeLimit then
    match transcribe_large_file w file_path with
    | (.ok out, ws) => ⟨some out, ws, 0, w.method⟩
    | (.error _, ws) => ⟨none, ws, 0, w.method⟩
  else
    match w.call1 with
    | .ok t =>
      if t == "" then transcribeFallback w file_path
      else ⟨some (transcriptionFilePath file_path),
            [(transcriptionFilePath file_path, t)], 1, w.method⟩
    | .error _ => transcribeFallback w file_path

/-- A large file whose only segment fails to transcribe. -/
def tvLargeFailWorld : TVWorld :=
  ⟨apiSizeLimit + 1, "api", .ok "unused", .ok "unused", .ok 0,
   fun _ => .ok (), fun _ => .error "segment failed"⟩

/-- An API transcriber whose every attempt reports an authentication
failure. -/
def apiAuthWorld : APIWorld :=
  ⟨true, 1000, fun _ => .error "authentication failed"⟩

/-- A transcribe_video call configured for the API method whose
transcriber raises the authentication error of apiAuthWorld on both the
direct call and the fallback call (the fallback reuses the very same
transcriber object). -/
def tvAuthWorld : TVWorld :=
  ⟨1000, "api", (APIWhisper_transcribe apiAuthWorld).1,
   (APIWhisper_transcribe apiAuthWorld).1, .ok 0,
   fun _ => .ok (), fun _ => .ok "t"⟩

/-- A non-API configuration whose single transcriber call fails. -/
def tvLocalFailWorld : TVWorld :=
  ⟨1000, "local", .error "network down", .ok "x", .ok 0,
   fun _ => .ok (), fun _ => .ok "t"⟩

/-- A world prepared exactly as the C10 scenario requires: the checkpoint
reports download and transcription complete, both artifacts are found,
and the summarize step raises. -/
def resumedPWorld : PWorld :=
  ⟨fun _ => ["download", "transcription"],
   fun _ => .ok none,
   fun _ => .ok (some "output/downloads/v.mp3"),
   fun _ => .ok none,
   fun _ => .ok (some "output/transcriptions/v.txt"),
   fun _ => .error "summarizer down",
   fun _ => .ok none⟩

/-!
Theorems.  Each claim of the specification review is settled by one
theorem below, with closed witness and counterexample theorems at
concrete worlds where applicable.
-/

theorem no_get_checkpoint_status :
    downloaderMethods.contains "_get_checkpoint_status" = false := by decide

theorem no_save_checkpoint :
    downloaderMethods.contains "_save_checkpoint" = false := by decide

/-- Every call of process_url raises AttributeError for _save_checkpoint
during its first iteration: the checkpoint status read of line 576 fails,
and the error handler of line 704 fails again while handling it.  Shared
computation lemma for the orchestration claims. -/
theorem process_url_raises (w : PWorld) (url : String) (i total : Nat) :
    process_url w url i total =
      ⟨.error (.attributeError "_save_checkpoint"), [], 1⟩ := rfl

/-- The collection loop is a partition of the outcome list: every job
lands in exactly the bucket selected by its own outcome, so one failed
job cannot move, drop or abort any other job.  Shared lemma for the batch
claims. -/
theorem collectResults_eq (l : List (String × Except PyExn Bool)) :
    collectResults l =
      ((l.filter (fun p => isOkTrue p.2)).map Prod.fst,
       (l.filter (fun p => !isOkTrue p.2)).map Prod.fst) := by
  induction l with
  | nil => rfl
  | cons p rest ih =>
    obtain ⟨u, r⟩ := p
    simp only [collectResults, ih]
    match r with
    | .ok true => simp [isOkTrue]
    | .ok false => simp [isOkTrue]
    | .error e => simp [isOkTrue]

/-- Since every process_url call raises, the collected buckets are always
empty successes and all URLs failed. -/
theorem collectResults_buildOutcomes (w : PWorld) (total : Nat)
    (i : Nat) (urls : List String) :
    collectResults (buildOutcomes w total i urls) = ([], urls) := by
  induction urls generalizing i with
  | nil => rfl
  | cons u rest ih =>
    simp only [buildOutcomes, collectResults, ih, process_url_raises]

/-- download_from_file always returns an empty successful-URL list.
Shared lemma. -/
theorem download_from_file_empty_results (w : PWorld) (fe : Bool)
    (lines : List String) : (download_from_file w fe lines).1 = [] := by
  cases fe
  · rfl
  · simp only [download_from_file, Bool.not_true, Bool.false_eq_true,
      if_false]
    split
    · rfl
    · simp [collectResults_buildOutcomes]

/-- When the URL file exists and holds at least one non-blank line, the
summary reports zero successes and every URL as failed.  Shared lemma. -/
theorem download_from_file_summary (w : PWorld) (lines : List String)
    (h : cleanLines lines ≠ []) :
    (download_from_file w true lines).2 =
      some ⟨(cleanLines lines).length, 0, (cleanLines lines).length, [],
        cleanLines lines⟩ := by
  have he : (cleanLines lines).isEmpty = false := by
    cases hc : cleanLines lines with
    | nil => exact absurd hc h
    | cons a l => rfl
  simp [download_from_file, he, collectResults_buildOutcomes]

/-- C1: process_url reads the checkpoint via self._get_checkpoint_status
and writes the error checkpoint via self._save_checkpoint, but neither
method is defined on YouTubeDownloader, so every invocation of
process_url ends with the AttributeError of the error-path
_save_checkpoint call escaping; consequently download_from_file
classifies every URL as failed and always returns an empty list of
successful URLs. -/
theorem c1_process_url_always_fails :
    downloaderMethods.contains "_get_checkpoint_status" = false ∧
    downloaderMethods.contains "_save_checkpoint" = false ∧
    (∀ w url i total, (process_url w url i total).result =
      .error (.attributeError "_save_checkpoint")) ∧
    (∀ w fe lines, (download_from_file w fe lines).1 = []) ∧
    (∀ w lines, cleanLines lines ≠ [] →
      (download_from_file w true lines).2 =
        some ⟨(cleanLines lines).length, 0, (cleanLines lines).length, [],
          cleanLines lines⟩) := by
  refine ⟨by decide, by decide, ?_, ?_, ?_⟩
  · intro w url i total
    simp [process_url_raises]
  · intro w fe lines
    exact download_from_file_empty_results w fe lines
  · intro w lines h
    exact download_from_file_summary w lines h

/-- Witness for C1 at a concrete one-URL batch. -/
theorem c1_process_url_always_fails_witness :
    cleanLines ["u"] ≠ [] ∧
    (download_from_file trivialPWorld true ["u"]).2 =
      some ⟨1, 0, 1, [], ["u"]⟩ := by
  refine ⟨by decide, ?_⟩
  exact c1_process_url_always_fails.2.2.2.2 trivialPWorld ["u"] (by decide)

/-- C4 counterexample: a whole run of process_url for a failing URL
performs one loop iteration, zero Job-level retries and zero waits, so
the linear backoff schedule of delays 5 and 10 seconds claimed for the
Job-level loop is never observed. -/
theorem c4_backoff_counterexample :
    (process_url trivialPWorld "u" 1 1).sleeps = [] ∧
    (process_url trivialPWorld "u" 1 1).iterations = 1 ∧
    (process_url trivialPWorld "u" 1 1).result =
      .error (.attributeError "_save_checkpoint") ∧
    ([] : List Nat) ≠ [puRetryDelay * 1, puRetryDelay * 2] :=
  ⟨rfl, rfl, rfl, by decide⟩

/-- C4 amended: process_url fixes max_retries to 3 and retry_delay to the
constant 5 (the sleeps of lines 698 and 709 never grow), and in the code
as given every invocation raises AttributeError during its first
iteration, so no Job-level retry and no between-retry wait ever takes
place. -/
theorem c4_job_retry_never_runs :
    puMaxRetries = 3 ∧ puRetryDelay = 5 ∧
    (∀ w url i total, process_url w url i total =
      ⟨.error (.attributeError "_save_checkpoint"), [], 1⟩) :=
  ⟨rfl, rfl, fun w url i total => process_url_raises w url i total⟩

/-- Stage 2 can only be entered (through either its transcription branch
or its lookup branch) when stage 1 succeeded with a truthy file_path. -/
theorem stage2_guarded (w : PWorld) (url : String) (st : List String)
    (s1 : S1Out) :
    (((stage2 w url st s1).trInvoked || (stage2 w url st s1).ftInvoked)
      && !(s1.success && s1.file_path.isSome)) = false := by
  obtain ⟨fp, succ, dl, fa⟩ := s1
  cases succ
  · simp [stage2]
  · cases fp
    · simp [stage2]
    · simp

/-- Stage 3 can only be entered when stage 2 left success set with a
truthy transcription_file. -/
theorem stage3_guarded (w : PWorld) (url : String) (st : List String)
    (s2 : S2Out) :
    (((stage3 w url st s2).smInvoked || (stage3 w url st s2).fsInvoked)
      && !(s2.success && s2.transcription_file.isSome)) = false := by
  obtain ⟨tf, succ, tr, ft⟩ := s2
  cases succ
  · simp [stage3]
  · cases tf
    · simp [stage3]
    · simp

/-- After a stage-1 failure the stage-2 code leaves every variable
untouched. -/
theorem stage2_after_failure (w : PWorld) (url : String) (st : List String)
    (s1 : S1Out) (h : s1.success = false) :
    stage2 w url st s1 = ⟨none, false, false, false⟩ := by
  simp [stage2, h]

/-- Stage 3 on the untouched stage-2 state does nothing. -/
theorem stage3_after_failure (w : PWorld) (url : String) (st : List String) :
    stage3 w url st ⟨none, false, false, false⟩ = ⟨false, false, false⟩ := by
  simp [stage3]

/-- C6: in the stage-sequencing body of process_url (lines 577 to 700,
taken over every checkpoint status and every oracle outcome), the
transcription stage is never entered unless stage 1 resolved a download
artifact with success still set, the summary stage is never entered
unless stage 2 resolved a transcription artifact with success still set,
and after a stage-1 failure no later stage code runs at all. -/
theorem c6_stage_order :
    ∀ (w : PWorld) (url : String) (st : List String),
    let s1 := stage1 w url st
    let s2 := stage2 w url st s1
    let s3 := stage3 w url st s2
    ((s2.trInvoked || s2.ftInvoked)
        && !(s1.success && s1.file_path.isSome)) = false ∧
    ((s3.smInvoked || s3.fsInvoked)
        && !(s2.success && s2.transcription_file.isSome)) = false ∧
    (!s1.success
        && (s2.trInvoked || s2.ftInvoked || s3.smInvoked || s3.fsInvoked))
      = false := by
  intro w url st
  refine ⟨stage2_guarded w url st _, stage3_guarded w url st _, ?_⟩
  by_cases h : (stage1 w url st).success = true
  · simp [h]
  · have h0 : (stage1 w url st).success = false := by
      revert h; cases (stage1 w url st).success <;> simp
    rw [stage2_after_failure w url st _ h0, stage3_after_failure]
    simp [h0]

/-- A failing youtube-dl attempt adds one invocation and ends the stage
with no result. -/
theorem tryYoutubedl_fails (w : DLWorld) (inv : Nat)
    (h : ydlFails w.youtubedl = true) :
    tryYoutubedl w inv = ⟨none, inv + 1, false⟩ := by
  cases hy : w.youtubedl with
  | raised m => simp [tryYoutubedl, hy]
  | completed b =>
    rw [hy] at h
    cases b
    · simp [tryYoutubedl, hy]
    · simp [ydlFails] at h

/-- Failing yt-dlp and youtube-dl attempts add two invocations and end
the stage with no result. -/
theorem tryYtdlp_fails (w : DLWorld) (inv : Nat)
    (h2 : ydlFails w.ytdlp = true) (h3 : ydlFails w.youtubedl = true) :
    tryYtdlp w inv = ⟨none, inv + 2, false⟩ := by
  cases hy : w.ytdlp with
  | raised m => simpa [tryYtdlp, hy] using tryYoutubedl_fails w (inv + 1) h3
  | completed b =>
    rw [hy] at h2
    cases b
    · simpa [tryYtdlp, hy] using tryYoutubedl_fails w (inv + 1) h3
    · simp [ydlFails] at h2

/-- C2 counterexample: with all three download backends failing,
download_video reports failure after exactly 3 attempts, not the
3 strategies times MAX_RETRIES = 9 attempts the claim requires. -/
theorem c2_attempts_counterexample :
    download_video dlAllFailWorld = ⟨none, 3, false⟩ ∧
    ¬((download_video dlAllFailWorld).invocations = 3 * MAX_RETRIES) :=
  ⟨rfl, by decide⟩

/-- C2 amended: download_video tries each of its 3 backends exactly once,
with no per-backend retry loop; when the artifact is absent and every
backend fails, the stage reports failure (returns None) after exactly 3
total attempts. -/
theorem c2_one_attempt_per_backend (w : DLWorld)
    (h0 : w.canonicalExists = false) (h1 : pytubeFails w = true)
    (h2 : ydlFails w.ytdlp = true) (h3 : ydlFails w.youtubedl = true) :
    download_video w = ⟨none, 3, false⟩ := by
  cases hp : w.pytube with
  | raised m => simpa [download_video, h0, hp] using tryYtdlp_fails w 1 h2 h3
  | noStreams => simpa [download_video, h0, hp] using tryYtdlp_fails w 1 h2 h3
  | downloaded p =>
    simp only [pytubeFails, hp] at h1
    by_cases he : pyEndsWith p ".mp3" = true
    · rw [if_pos he] at h1
      exact absurd h1 (by simp)
    · rw [if_neg he] at h1
      cases hcv : w.convert with
      | ok u =>
        rw [hcv] at h1
        exact absurd h1 (by simp)
      | error m =>
        have := tryYtdlp_fails w 1 h2 h3
        simp only [download_video, h0, hp, hcv]
        simp only [Bool.false_eq_true, if_false]
        rw [if_neg he]
        simpa using this

/-- Witness for the amended C2 at the all-raising world. -/
theorem c2_one_attempt_per_backend_witness :
    (dlAllFailWorld.canonicalExists = false ∧
     pytubeFails dlAllFailWorld = true ∧
     ydlFails dlAllFailWorld.ytdlp = true ∧
     ydlFails dlAllFailWorld.youtubedl = true) ∧
    download_video dlAllFailWorld = ⟨none, 3, false⟩ :=
  ⟨⟨rfl, rfl, rfl, rfl⟩,
   c2_one_attempt_per_backend dlAllFailWorld rfl rfl rfl rfl⟩

/-- On the youtube-dl path the canonical MP3 exists afterwards exactly
when a result is returned. -/
theorem tryYoutubedl_canonicalAfter (w : DLWorld) (inv : Nat) :
    (tryYoutubedl w inv).canonicalAfter = (tryYoutubedl w inv).result.isSome := by
  cases hy : w.youtubedl with
  | raised m => simp [tryYoutubedl, hy]
  | completed b => cases b <;> simp [tryYoutubedl, hy]

/-- On the yt-dlp path the canonical MP3 exists afterwards exactly when a
result is returned. -/
theorem tryYtdlp_canonicalAfter (w : DLWorld) (inv : Nat) :
    (tryYtdlp w inv).canonicalAfter = (tryYtdlp w inv).result.isSome := by
  cases hy : w.ytdlp with
  | raised m => simpa [tryYtdlp, hy] using tryYoutubedl_canonicalAfter w (inv + 1)
  | completed b =>
    cases b
    · simpa [tryYtdlp, hy] using tryYoutubedl_canonicalAfter w (inv + 1)
    · simp [tryYtdlp, hy]

/-- Whenever download_video returns the canonical MP3 path, that file
exists afterwards. -/
theorem download_video_result_canonical (w : DLWorld)
    (h : (download_video w).result = some (canonicalMp3 w.title)) :
    (download_video w).canonicalAfter = true := by
  by_cases hc : w.canonicalExists = true
  · simp [download_video, hc]
  · have hc0 : w.canonicalExists = false := by
      revert hc; cases w.canonicalExists <;> simp
    cases hp : w.pytube with
    | downloaded p =>
      by_cases he : pyEndsWith p ".mp3" = true
      · simp only [download_video, hc0, Bool.false_eq_true, if_false, hp,
          he, if_true] at h ⊢
        simp only [Option.some.injEq] at h
        simp [h]
      · cases hcv : w.convert with
        | ok u => simp [download_video, hc0, hp, he, hcv]
        | error m =>
          simp only [download_video, hc0, Bool.false_eq_true, if_false, hp,
            he, if_false, hcv] at h ⊢
          rw [tryYtdlp_canonicalAfter, h]
          rfl
    | raised m =>
      simp only [download_video, hc0, Bool.false_eq_true, if_false, hp] at h ⊢
      rw [tryYtdlp_canonicalAfter, h]
      rfl
    | noStreams =>
      simp only [download_video, hc0, Bool.false_eq_true, if_false, hp] at h ⊢
      rw [tryYtdlp_canonicalAfter, h]
      rfl

/-- C5 amended: if the canonical MP3 already exists, download_video
returns it at once with zero backend invocations; and a second run
performs zero backend invocations provided the first run returned the
artifact at its canonical location (as the yt-dlp, youtube-dl and
pytube-conversion paths always do).  The pytube branch that returns a
path already ending in ".mp3" is the one path that can succeed while
leaving the canonical location empty. -/
theorem c5_skip_and_idempotence :
    (∀ w : DLWorld, w.canonicalExists = true →
       download_video w = ⟨some (canonicalMp3 w.title), 0, true⟩) ∧
    (∀ w : DLWorld,
       (download_video w).result = some (canonicalMp3 w.title) →
       download_video { w with
           canonicalExists := (download_video w).canonicalAfter } =
         ⟨some (canonicalMp3 w.title), 0, true⟩) := by
  constructor
  · intro w h
    simp [download_video, h]
  · intro w h
    rw [download_video_result_canonical w h]
    simp [download_video]

/-- Witness for the amended C5: with the artifact already in place both
conjuncts apply, and the second run is a zero-invocation skip. -/
theorem c5_skip_and_idempotence_witness :
    dlSkipWorld.canonicalExists = true ∧
    download_video dlSkipWorld = ⟨some (canonicalMp3 dlSkipWorld.title), 0, true⟩ ∧
    (download_video dlSkipWorld).result = some (canonicalMp3 dlSkipWorld.title) ∧
    download_video { dlSkipWorld with
        canonicalExists := (download_video dlSkipWorld).canonicalAfter } =
      ⟨some (canonicalMp3 dlSkipWorld.title), 0, true⟩ :=
  ⟨rfl, c5_skip_and_idempotence.1 dlSkipWorld rfl, rfl,
   c5_skip_and_idempotence.2 dlSkipWorld rfl⟩

/-- C5 counterexample: a first run that succeeds through the direct-MP3
pytube branch leaves nothing at the canonical location, so the second run
invokes a strategy again (1 invocation, not the claimed 0). -/
theorem c5_second_run_counterexample :
    (download_video dlMp3TitleWorld).result = some "output/downloads/x.mp3" ∧
    (download_video dlMp3TitleWorld).canonicalAfter = false ∧
    (download_video { dlMp3TitleWorld with
        canonicalExists := (download_video dlMp3TitleWorld).canonicalAfter
      }).invocations = 1 ∧
    ¬((download_video { dlMp3TitleWorld with
        canonicalExists := (download_video dlMp3TitleWorld).canonicalAfter
      }).invocations = 0) :=
  ⟨rfl, rfl, rfl, by decide⟩

theorem attemptIndices_eq : attemptIndices = [1, 2, 3] := rfl

/-- C3: in LocalWhisperTranscriber.transcribe with base delay
RETRY_DELAY = 5 and MAX_RETRIES = 3, a failing attempt function waits 5
seconds before the first retry and 10 seconds before the second (delay
RETRY_DELAY * attempt for each retried attempt), and after the third
failure the final error is re-raised; a retry that succeeds stops the
schedule after its linear waits. -/
theorem c3_linear_backoff :
    (∀ (att : Nat → Except String String) (e1 e2 e3 : String),
       att 1 = .error e1 → att 2 = .error e2 → att 3 = .error e3 →
       LocalWhisper_transcribe ⟨true, .ok (), att⟩ =
         (.error e3, 3, [RETRY_DELAY * 1, RETRY_DELAY * 2])) ∧
    (∀ (att : Nat → Except String String) (e1 t : String),
       att 1 = .error e1 → att 2 = .ok t →
       LocalWhisper_transcribe ⟨true, .ok (), att⟩ =
         (.ok t, 2, [RETRY_DELAY * 1])) ∧
    RETRY_DELAY * 1 = 5 ∧ RETRY_DELAY * 2 = 10 := by
  refine ⟨?_, ?_, rfl, rfl⟩
  · intro att e1 e2 e3 h1 h2 h3
    simp [LocalWhisper_transcribe, attemptIndices_eq, localRetryLoop,
      h1, h2, h3]
  · intro att e1 t h1 h2
    simp [LocalWhisper_transcribe, attemptIndices_eq, localRetryLoop,
      h1, h2]

/-- Witness for C3 with an always-failing and a once-failing attempt
function. -/
theorem c3_linear_backoff_witness :
    LocalWhisper_transcribe ⟨true, .ok (), fun _ => .error "boom"⟩ =
      (.error "boom", 3, [5, 10]) ∧
    LocalWhisper_transcribe
        ⟨true, .ok (), fun k => if k = 1 then .error "boom" else .ok "text"⟩ =
      (.ok "text", 2, [5]) :=
  ⟨c3_linear_backoff.1 (fun _ => .error "boom") "boom" "boom" "boom"
      rfl rfl rfl,
   c3_linear_backoff.2.1
      (fun k => if k = 1 then .error "boom" else .ok "text") "boom" "text"
      rfl rfl⟩

/-- If any listed segment raises, the ordered collection of segment
results raises. -/
theorem seqSegs_error (f : Nat → Except String String) (l : List Nat)
    (h : ∃ i ∈ l, ∃ e, f i = .error e) :
    ∃ e2, seqSegs f l = .error e2 := by
  induction l with
  | nil => simp at h
  | cons a rest ih =>
    obtain ⟨i, hi, e, he⟩ := h
    rcases List.mem_cons.mp hi with h1 | h2
    · subst h1
      exact ⟨e, by simp [seqSegs, he]⟩
    · cases hfa : f a with
      | error e3 => exact ⟨e3, by simp [seqSegs, hfa]⟩
      | ok t =>
        obtain ⟨e4, h4⟩ := ih ⟨i, h2, e, he⟩
        exact ⟨e4, by simp [seqSegs, hfa, h4]⟩

/-- C7: for a file over the 25MB limit, split into 300-second segments,
the failure of any single segment transcription makes the whole
transcription stage fail: transcribe_video returns None and no transcript
file, partial or otherwise, is written. -/
theorem c7_segment_failure_fails_stage :
    ∀ (w : TVWorld) (fp : String) (d : Nat),
    w.sizeBytes > apiSizeLimit →
    w.probe = .ok d →
    (∃ k, k < numSegments d ∧ ∃ e, w.seg k = .error e) →
    (transcribe_video w fp).result = none ∧
    (transcribe_video w fp).written = [] := by
  intro w fp d hsize hprobe hseg
  obtain ⟨k, hk, e, hke⟩ := hseg
  have hLF : ∃ e2, transcribe_large_file w fp = (.error e2, []) := by
    cases hsp : seqSplits w.split (List.range (numSegments d)) with
    | error e3 => exact ⟨e3, by simp [transcribe_large_file, hprobe, hsp]⟩
    | ok u =>
      obtain ⟨e4, h4⟩ := seqSegs_error w.seg (List.range (numSegments d))
        ⟨k, List.mem_range.mpr hk, e, hke⟩
      exact ⟨e4, by simp [transcribe_large_file, hprobe, hsp, h4]⟩
  obtain ⟨e2, hLF⟩ := hLF
  constructor <;> simp [transcribe_video, hsize, hLF]

/-- Witness for C7 at a one-segment large file. -/
theorem c7_segment_failure_fails_stage_witness :
    tvLargeFailWorld.sizeBytes > apiSizeLimit ∧
    tvLargeFailWorld.probe = .ok 0 ∧
    0 < numSegments 0 ∧
    tvLargeFailWorld.seg 0 = .error "segment failed" ∧
    (transcribe_video tvLargeFailWorld "big.mp3").result = none ∧
    (transcribe_video tvLargeFailWorld "big.mp3").written = [] := by
  have h := c7_segment_failure_fails_stage tvLargeFailWorld "big.mp3" 0
    (by decide) rfl ⟨0, by decide, "segment failed", rfl⟩
  exact ⟨by decide, rfl, by decide, rfl, h.1, h.2⟩

/-- C8 counterexample: an authentication failure does abort the API
transcriber without retries (1 attempt, no sleeps), but transcribe_video
catches it and invokes the transcriber a second time before failing, so
the stage performs 2 strategy invocations instead of aborting on the
spot, and it surfaces a plain None rather than the authentication
error. -/
theorem c8_auth_fallthrough_counterexample :
    APIWhisper_transcribe apiAuthWorld = (.error "authentication failed", 1, []) ∧
    transcribe_video tvAuthWorld "a.mp3" = ⟨none, [], 2, "local"⟩ ∧
    ¬((transcribe_video tvAuthWorld "a.mp3").transcriberCalls = 1) :=
  ⟨rfl, rfl, by decide⟩

/-- C8 amended: an authentication error is non-retryable inside the API
transcriber, aborting its retry loop on the spot with no sleeps and no
further attempts; but the stage (transcribe_video) catches the error and,
when the configured method is "api", performs one fallback transcriber
call (flipping the method to "local" while reusing the same transcriber)
before failing by returning None; with a method other than "api" the
stage fails after the single call, again returning None, so only a
generic failure reaches the failure record of the Job. -/
theorem c8_auth_nonretryable_with_fallback :
    (∀ (att : Nat → Except String String) (e : String),
       att 1 = .error e → isAuthMsg e = true →
       apiRetryLoop att attemptIndices = (.error e, 1, [])) ∧
    (∀ (w : TVWorld) (fp : String) (e1 e2 : String),
       w.sizeBytes ≤ apiSizeLimit → w.method = "api" →
       w.call1 = .error e1 → w.call2 = .error e2 →
       transcribe_video w fp = ⟨none, [], 2, "local"⟩) ∧
    (∀ (w : TVWorld) (fp : String) (e1 : String),
       w.sizeBytes ≤ apiSizeLimit → w.method ≠ "api" →
       w.call1 = .error e1 →
       transcribe_video w fp = ⟨none, [], 1, w.method⟩) := by
  refine ⟨?_, ?_, ?_⟩
  · intro att e h1 ha
    rw [attemptIndices_eq]
    simp [apiRetryLoop, h1, ha]
  · intro w fp e1 e2 hsize hm h1 h2
    have hns : ¬(w.sizeBytes > apiSizeLimit) := by omega
    simp [transcribe_video, hns, h1, transcribeFallback, hm, h2]
  · intro w fp e1 hsize hm h1
    have hns : ¬(w.sizeBytes > apiSizeLimit) := by omega
    have hb : (w.method == "api") = false := beq_eq_false_iff_ne.mpr hm
    simp [transcribe_video, hns, h1, transcribeFallback, hb]

/-- Witness for the amended C8 on all three parts. -/
theorem c8_auth_nonretryable_with_fallback_witness :
    apiRetryLoop (fun _ => .error "bad api key") attemptIndices =
      (.error "bad api key", 1, []) ∧
    transcribe_video tvAuthWorld "a.mp3" = ⟨none, [], 2, "local"⟩ ∧
    transcribe_video tvLocalFailWorld "a.mp3" = ⟨none, [], 1, "local"⟩ :=
  ⟨c8_auth_nonretryable_with_fallback.1 (fun _ => .error "bad api key")
      "bad api key" rfl (by decide),
   c8_auth_nonretryable_with_fallback.2.1 tvAuthWorld "a.mp3"
      "authentication failed" "authentication failed" (by decide) rfl rfl rfl,
   c8_auth_nonretryable_with_fallback.2.2 tvLocalFailWorld "a.mp3"
      "network down" (by decide) (by decide) rfl⟩

/-- C9: the worker pool of download_from_file classifies each job purely
by its own outcome (an exception raised by a job is caught at line 761
and recorded as that one failure, so it cannot raise out of the pool nor
move, drop or cancel any other job), and the batch summary is always
produced with consistent counts, even for the batch in which every job
failed, which under this code is every batch. -/
theorem c9_job_independence :
    (∀ l : List (String × Except PyExn Bool), collectResults l =
      ((l.filter (fun p => isOkTrue p.2)).map Prod.fst,
       (l.filter (fun p => !isOkTrue p.2)).map Prod.fst)) ∧
    (∀ (w : PWorld) (lines : List String), cleanLines lines ≠ [] →
      download_from_file w true lines =
        ([], some ⟨(cleanLines lines).length, 0, (cleanLines lines).length,
          [], cleanLines lines⟩)) := by
  constructor
  · exact collectResults_eq
  · intro w lines h
    have h1 := download_from_file_empty_results w true lines
    have h2 := download_from_file_summary w lines h
    exact Prod.ext h1 h2

/-- Witness for C9 at a concrete two-URL batch. -/
theorem c9_job_independence_witness :
    cleanLines ["u1", "u2"] ≠ [] ∧
    download_from_file trivialPWorld true ["u1", "u2"] =
      ([], some ⟨2, 0, 2, [], ["u1", "u2"]⟩) := by
  refine ⟨by decide, ?_⟩
  exact c9_job_independence.2 trivialPWorld ["u1", "u2"] (by decide)

/-- C10 counterexample: for a job whose download and transcription
artifacts are resolved and whose summarize step alone fails, the batch
report of download_from_file lists it in the failed bucket of its
two-bucket summary (successful_urls and failed_urls are the only
classifications built at lines 770 to 776); no partially-successful
bucket and no completed-stage count exist to receive it. -/
theorem c10_missing_bucket_counterexample :
    (stage1 resumedPWorld "u" ["download", "transcription"]).success = true ∧
    (stage1 resumedPWorld "u" ["download", "transcription"]).file_path =
      some "output/downloads/v.mp3" ∧
    (stage2 resumedPWorld "u" ["download", "transcription"]
        (stage1 resumedPWorld "u" ["download", "transcription"])).success = true ∧
    (stage2 resumedPWorld "u" ["download", "transcription"]
        (stage1 resumedPWorld "u" ["download", "transcription"])).transcription_file =
      some "output/transcriptions/v.txt" ∧
    (stage3 resumedPWorld "u" ["download", "transcription"]
        (stage2 resumedPWorld "u" ["download", "transcription"]
          (stage1 resumedPWorld "u" ["download", "transcription"]))).smInvoked = true ∧
    (stage3 resumedPWorld "u" ["download", "transcription"]
        (stage2 resumedPWorld "u" ["download", "transcription"]
          (stage1 resumedPWorld "u" ["download", "transcription"]))).success = false ∧
    download_from_file resumedPWorld true ["u"] =
      ([], some ⟨1, 0, 1, [], ["u"]⟩) :=
  ⟨rfl, rfl, rfl, rfl, rfl, rfl, rfl⟩

/-- C10 amended: the batch report buckets every job into exactly one of
two classes, successful (the run returned True) and failed (it returned
False or raised), with counts equal to the bucket sizes and the two
buckets covering the whole batch; a job whose download and transcription
are resolved but whose summarize step fails is reported in the failed
bucket, and no per-stage completion count appears in the report. -/
theorem c10_two_bucket_report :
    (∀ (w : PWorld) (lines : List String), cleanLines lines ≠ [] →
       ∃ s, (download_from_file w true lines).2 = some s ∧
         s.successful = s.successful_urls.length ∧
         s.failed = s.failed_urls.length ∧
         s.successful_urls.length + s.failed_urls.length = s.total_urls) ∧
    (download_from_file resumedPWorld true ["u"]).1 = [] ∧
    (download_from_file resumedPWorld true ["u"]).2 =
      some ⟨1, 0, 1, [], ["u"]⟩ := by
  refine ⟨?_, rfl, rfl⟩
  intro w lines h
  refine ⟨⟨(cleanLines lines).length, 0, (cleanLines lines).length, [],
    cleanLines lines⟩, download_from_file_summary w lines h, rfl, rfl,
    by simp⟩

/-- Witness for the amended C10 at a concrete batch. -/
theorem c10_two_bucket_report_witness :
    cleanLines ["u"] ≠ [] ∧
    (∃ s, (download_from_file trivialPWorld true ["u"]).2 = some s ∧
      s.successful = s.successful_urls.length ∧
      s.failed = s.failed_urls.length ∧
      s.successful_urls.length + s.failed_urls.length = s.total_urls) := by
  refine ⟨by decide, ?_⟩
  exact c10_two_bucket_report.1 trivialPWorld ["u"] (by decide)

